import Mathlib

/-!
Shallow embedding of
src/packages/apollo-server-core/src/plugin/usageReporting/addTraceRequestStats.ts.

The file models the per-request usage-statistics collector: the recursive
type walker that validates variable values against their declared input
types while recording input-object-field and enum-value occurrences, the
variable classifier, the document scanner callbacks, the stats-recording
helpers, and the top-level entry point with its catch-and-discard
behaviour.

JavaScript runtime values are modelled by the inductive type Value; the
distinction between null and undefined, the behaviour of typeof, of
property access on objects and arrays, of Object.keys, and of the iterall
isCollection and forEach helpers are reproduced explicitly, since the source code
depends on them.
-/

namespace ApolloStats

/-- Runtime values as seen by the walker: null, undefined, strings,
numbers, booleans, array values and plain keyed objects. -/
inductive Value where
  | vnull : Value
  | vundefined : Value
  | vstr : String → Value
  | vnum : Int → Value
  | vbool : Bool → Value
  | vlist : List Value → Value
  | vobj : List (String × Value) → Value
deriving Repr

/-- Test for the JavaScript null value (the source compares with ===
against null, which is false for undefined). -/
def Value.isNull : Value → Bool
  | .vnull => true
  | _ => false

/-- Test for the JavaScript undefined value. -/
def Value.isUndefined : Value → Bool
  | .vundefined => true
  | _ => false

/-- Outcome of the externally supplied parseValue function of a scalar:
it can return an ordinary value, return undefined, or throw. -/
inductive ScalarParseOutcome where
  | returnsValue : ScalarParseOutcome
  | returnsUndefined : ScalarParseOutcome
  | throws : ScalarParseOutcome
deriving DecidableEq, Repr

/-- GraphQL input types: the closed five-way sum of non-null wrapper,
list wrapper, input object (name and declared fields, each field being
name, declared type, and whether a default value is present), scalar
(name and external parseValue behaviour) and enum (name and declared
member names). -/
inductive InputType where
  | nonNull : InputType → InputType
  | list : InputType → InputType
  | inputObject : String → List (String × InputType × Bool) → InputType
  | scalar : String → (Value → ScalarParseOutcome) → InputType
  | enum : String → List String → InputType

/-- Mirror of isNonNullType from graphql-js. -/
def isNonNullType : InputType → Bool
  | .nonNull _ => true
  | _ => false

/-- Canonical textual rendering of a type, mirroring GraphQLType.toString:
non-null appends a bang, list wraps in brackets, named types print their
name. -/
def typeToString : InputType → String
  | .nonNull t => typeToString t ++ "!"
  | .list t => "[" ++ typeToString t ++ "]"
  | .inputObject name _ => name
  | .scalar name _ => name
  | .enum name _ => name

/-- Association-list lookup by string key; the first binding wins, as
property lookup on a JavaScript object does. -/
def assocGet {α : Type} (entries : List (String × α)) (key : String) : Option α :=
  match entries with
  | [] => none
  | (k, v) :: rest => if k = key then some v else assocGet rest key

/-- Association-list get-or-create-then-update, the shape of the
hasOwnProperty-guarded mutations in inputFieldIsInRequest and
enumValueIsInRequest: when the key is present its value is updated in
place, otherwise a new binding seeded from init is appended (JavaScript
string-keyed insertion order). -/
def updateAssoc {α : Type} (entries : List (String × α)) (key : String) (init : α)
    (upd : α → α) : List (String × α) :=
  match entries with
  | [] => [(key, upd init)]
  | (k, v) :: rest =>
    if k = key then (k, upd v) :: rest else (k, v) :: updateAssoc rest key init upd

/-- Canonical decimal array-index key, as JavaScript arrays use: the
string must round-trip through Nat. -/
def natKey (s : String) : Option Nat :=
  match s.toNat? with
  | some n => if toString n = s then some n else none
  | none => none

/-- Property access value[key] as the source performs it: on a plain
object, assoc lookup defaulting to undefined; on an array, the length
property and canonical index properties; undefined everywhere else
(primitive receivers never occur in the walker paths that use this). -/
def jsGet (v : Value) (key : String) : Value :=
  match v with
  | .vobj entries => (assocGet entries key).getD .vundefined
  | .vlist xs =>
    if key = "length" then .vnum xs.length
    else
      match natKey key with
      | some i => xs.getD i .vundefined
      | none => .vundefined
  | _ => .vundefined

/-- Enumerable own property keys, mirroring Object.keys: for an object, the
declared keys in insertion order; for an array, the index keys (length is not
enumerable). -/
def jsKeys (v : Value) : List String :=
  match v with
  | .vobj entries => entries.map (fun p => p.1)
  | .vlist xs => (List.range xs.length).map toString
  | _ => []

/-- Test for typeof v being the string "object"; in JavaScript this holds
for null, arrays and plain objects, and fails for strings, numbers,
booleans and undefined. -/
def jsTypeofIsObject : Value → Bool
  | .vnull => true
  | .vlist _ => true
  | .vobj _ => true
  | _ => false

/-- Mirror of the iterall isCollection helper: true for an array (iterable
object), and for a plain object that is array-like, i.e. whose length
property is a non-negative number; false for null, undefined and
primitives (strings fail the typeof check). -/
def isCollection (v : Value) : Bool :=
  match v with
  | .vlist _ => true
  | .vobj entries =>
    match assocGet entries "length" with
    | some (.vnum n) => decide (0 ≤ n)
    | _ => false
  | _ => false

/-- Elements visited by the iterall forEach helper over a collection:
for an array, its elements in order; for an array-like object, the index properties 0 to
length - 1 (holes read as undefined). -/
def collectionElems (v : Value) : List Value :=
  match v with
  | .vlist xs => xs
  | .vobj entries =>
    match assocGet entries "length" with
    | some (.vnum n) => (List.range n.toNat).map (fun i => jsGet (.vobj entries) (toString i))
    | _ => []
  | _ => []

/-- Mirror of the protobuf InputFieldStat message (all fields default to
zero values). -/
structure InputFieldStat where
  fieldType : String
  requestCount : Nat
  requestCountNull : Nat
deriving DecidableEq, Repr

/-- Mirror of the protobuf InputTypeStat message: its per-field map. -/
structure InputTypeStat where
  perInputFieldStat : List (String × InputFieldStat)
deriving DecidableEq, Repr

/-- Mirror of the protobuf EnumValueStat message. -/
structure EnumValueStat where
  requestCount : Nat
deriving DecidableEq, Repr

/-- Mirror of the protobuf EnumTypeStat message: its per-value map. -/
structure EnumTypeStat where
  perEnumValueStat : List (String × EnumValueStat)
deriving DecidableEq, Repr

/-- The portion of the Trace message that addTraceRequestStats reads and
writes: the two summary mappings. -/
structure Trace where
  perInputTypeStat : List (String × InputTypeStat)
  perEnumTypeStat : List (String × EnumTypeStat)
deriving DecidableEq, Repr

/-- Trace whose two summary mappings are empty. -/
def emptyTrace : Trace := ⟨[], []⟩

/-- Freshly constructed InputFieldStat (protobuf defaults). -/
def newInputFieldStat : InputFieldStat := ⟨"", 0, 0⟩

/-- Mirror of inputFieldIsInRequest: get-or-create the type stat, the
field map and the field stat, then set fieldType, set requestCount to 1,
and set requestCountNull to 1 only when isNull holds (otherwise it is
left as it was). -/
def inputFieldIsInRequest (trace : Trace) (inputObjectTypeName inputFieldName : String)
    (inputFieldTypeName : String) (isNull : Bool) : Trace :=
  ⟨updateAssoc trace.perInputTypeStat inputObjectTypeName ⟨[]⟩
      (fun ts =>
        ⟨updateAssoc ts.perInputFieldStat inputFieldName newInputFieldStat
          (fun st =>
            ⟨inputFieldTypeName, 1, if isNull then 1 else st.requestCountNull⟩)⟩),
    trace.perEnumTypeStat⟩

/-- Mirror of enumValueIsInRequest: get-or-create the enum type stat, the
value map and the value stat, then set requestCount to 1. -/
def enumValueIsInRequest (trace : Trace) (enumTypeName enumValueName : String) : Trace :=
  ⟨trace.perInputTypeStat,
    updateAssoc trace.perEnumTypeStat enumTypeName ⟨[]⟩
      (fun ts => ⟨updateAssoc ts.perEnumValueStat enumValueName ⟨0⟩ (fun _ => ⟨1⟩)⟩)⟩

/-- Validation failures raised inside the try block of
addTraceRequestStats, one constructor per distinct throw site. -/
inductive WalkError where
  | unresolvableVariableType : WalkError
  | missingRequiredVariable : WalkError
  | nullForNonNullVariable : WalkError
  | nullForNonNull : WalkError
  | notAnObject : WalkError
  | missingRequiredField : WalkError
  | unknownField : WalkError
  | scalarParseError : WalkError
  | scalarParseUndefined : WalkError
  | notAnEnumMember : WalkError
deriving DecidableEq, Repr

/-- Closed-field check at the end of the input-object branch: every key
provided on the value must name a declared field, otherwise the walk
fails with unknownField. -/
def checkProvidedKeys (keys : List String) (fields : List (String × InputType × Bool))
    (trace : Trace) : Except WalkError Trace :=
  match keys with
  | [] => .ok trace
  | k :: rest =>
    if (fields.map (fun f => f.1)).contains k then checkProvidedKeys rest fields trace
    else .error .unknownField

mutual

/-- Mirror of addTraceInputValueStats: walk a value against an input
type, threading the trace and stopping at the first validation error.
Cases follow the source order: non-null wrapper, null on a nullable
type, list wrapper (with single-element coercion of non-collections),
input object (field loop then closed-field key check), scalar parse,
enum membership. The five-way sum is closed, so the defensive
unreachable branch of the source has no counterpart. -/
def walkInput (inputValue : Value) (inputType : InputType) (trace : Trace) :
    Except WalkError Trace :=
  match inputType with
  | .nonNull ofType =>
    if inputValue.isNull then .error .nullForNonNull
    else walkInput inputValue ofType trace
  | .list itemType =>
    if inputValue.isNull then .ok trace
    else if isCollection inputValue then walkList (collectionElems inputValue) itemType trace
    else walkInput inputValue itemType trace
  | .inputObject name fields =>
    if inputValue.isNull then .ok trace
    else if jsTypeofIsObject inputValue then
      match walkFields name fields inputValue trace with
      | .ok tr2 => checkProvidedKeys (jsKeys inputValue) fields tr2
      | .error e => .error e
    else .error .notAnObject
  | .scalar _ parseValue =>
    if inputValue.isNull then .ok trace
    else
      match parseValue inputValue with
      | .returnsValue => .ok trace
      | .returnsUndefined => .error .scalarParseUndefined
      | .throws => .error .scalarParseError
  | .enum name values =>
    if inputValue.isNull then .ok trace
    else
      match inputValue with
      | .vstr s => if values.contains s then .ok (enumValueIsInRequest trace name s)
        else .error .notAnEnumMember
      | _ => .error .notAnEnumMember
termination_by (sizeOf inputType, 0)
decreasing_by
  all_goals simp_wf
  all_goals first
  | exact Prod.Lex.right _ (by omega)
  | exact Prod.Lex.left _ _ (by omega)

/-- Walk every element of a collection against the item type of the
list (the forEach loop of the list branch). -/
def walkList (elems : List Value) (itemType : InputType) (trace : Trace) :
    Except WalkError Trace :=
  match elems with
  | [] => .ok trace
  | x :: rest =>
    match walkInput x itemType trace with
    | .ok tr2 => walkList rest itemType tr2
    | .error e => .error e
termination_by (sizeOf itemType, 1 + sizeOf elems)
decreasing_by
  all_goals simp_wf
  all_goals exact Prod.Lex.right _ (by omega)

/-- Walk the declared fields of an input-object type against an object
value: an undefined field value is skipped (or fails with
missingRequiredField when the field is non-null without default); a
present value is recorded via inputFieldIsInRequest and then walked
against the declared type of the field. -/
def walkFields (typeName : String) (fields : List (String × InputType × Bool))
    (inputValue : Value) (trace : Trace) : Except WalkError Trace :=
  match fields with
  | [] => .ok trace
  | (fname, ftype, hasDefault) :: rest =>
    let fieldValue := jsGet inputValue fname
    if fieldValue.isUndefined then
      if !hasDefault && isNonNullType ftype then .error .missingRequiredField
      else walkFields typeName rest inputValue trace
    else
      match walkInput fieldValue ftype
          (inputFieldIsInRequest trace typeName fname (typeToString ftype) fieldValue.isNull) with
      | .ok tr2 => walkFields typeName rest inputValue tr2
      | .error e => .error e
termination_by (sizeOf fields, 0)
decreasing_by
  all_goals simp_wf
  all_goals first
  | exact Prod.Lex.right _ (by omega)
  | exact Prod.Lex.left _ _ (by omega)

end

/-- Default-value literal kinds that the classifier distinguishes: a
null literal versus any other literal (only presence and null-ness of
varDefinition.defaultValue are inspected by the source). -/
inductive DefaultLit where
  | nullValue : DefaultLit
  | otherValue : DefaultLit
deriving DecidableEq, Repr

/-- One declared variable of the operation. varType is the result of
resolving the AST type annotation through typeFromAST and the
isInputType check against the external schema (none when resolution
fails or yields a non-input type); defaultValue mirrors
varDefinition.defaultValue. -/
structure VarDef where
  name : String
  varType : Option InputType
  defaultValue : Option DefaultLit

/-- Provided variable values: none models an absent variables record
(the variables argument of the entry point is optional); entries with
undefined values are representable. -/
def VariableValues : Type := Option (List (String × Value))

/-- Mirror of Object.prototype.hasOwnProperty.call(variables, varName)
guarded by the truthiness check on variables. -/
def hasOwn (varValues : VariableValues) (name : String) : Bool :=
  match varValues with
  | none => false
  | some entries => entries.any (fun p => p.1 = name)

/-- Read variables[varName] (only reached when hasOwn holds). -/
def getVar (varValues : VariableValues) (name : String) : Value :=
  match varValues with
  | none => .vundefined
  | some entries => (assocGet entries name).getD .vundefined

/-- Mirror of the variable loop of addTraceRequestStats (the variable
classifier): for each declared variable, resolve its type, handle the
absent-value cases (missing-required failure, null-set bookkeeping,
continue with no walk), and otherwise check null against non-null,
extend the null set, and walk the provided value via walkInput. The
accumulated null-variable set is kept as a list in insertion order. -/
def classifyVariables (defs : List VarDef) (varValues : VariableValues) (trace : Trace)
    (nullVariableNames : List String) : Except WalkError (Trace × List String) :=
  match defs with
  | [] => .ok (trace, nullVariableNames)
  | vd :: rest =>
    match vd.varType with
    | none => .error .unresolvableVariableType
    | some varType =>
      if !hasOwn varValues vd.name then
        if vd.defaultValue = none && isNonNullType varType then
          .error .missingRequiredVariable
        else
          classifyVariables rest varValues trace
            (if vd.defaultValue = none || vd.defaultValue = some .nullValue then
              nullVariableNames ++ [vd.name]
            else nullVariableNames)
      else
        let value := getVar varValues vd.name
        if value.isNull && isNonNullType varType then .error .nullForNonNullVariable
        else
          let nullNames2 :=
            if value.isNull then nullVariableNames ++ [vd.name] else nullVariableNames
          match walkInput value varType trace with
          | .ok tr2 => classifyVariables rest varValues tr2 nullNames2
          | .error e => .error e

/-- Kind of the value attached to an object-field node in the document,
as far as the ObjectField visitor inspects it: a null literal, a
variable reference, or anything else. -/
inductive DocFieldValueKind where
  | nullLit : DocFieldValueKind
  | varRef : String → DocFieldValueKind
  | otherVal : DocFieldValueKind
deriving DecidableEq, Repr

/-- Node-visit events delivered by the external schema-directed document
walker (visitWithTypeInfo over the reachable document of the operation):
an
object-field node with its resolved parent input-object type name, field
name and field type signature, or an enum-literal node with its resolved
enum type name and member name. -/
inductive DocEvent where
  | objectField : String → String → String → DocFieldValueKind → DocEvent
  | enumLiteral : String → String → DocEvent
deriving DecidableEq, Repr

/-- Mirror of the two visitor callbacks registered with the document
walker: each object-field event records an occurrence whose null-ness is
a null literal or a variable reference found in the null-variable set,
and each enum-literal event records an enum occurrence. Neither callback
can fail. -/
def scanDocument (events : List DocEvent) (nullVariableNames : List String)
    (trace : Trace) : Trace :=
  events.foldl
    (fun tr ev =>
      match ev with
      | .objectField parentTypeName fieldName fieldTypeName valueKind =>
        inputFieldIsInRequest tr parentTypeName fieldName fieldTypeName
          (match valueKind with
           | .nullLit => true
           | .varRef n => nullVariableNames.contains n
           | .otherVal => false)
      | .enumLiteral enumTypeName valueName => enumValueIsInRequest tr enumTypeName valueName)
    trace

/-- Mirror of the entry point addTraceRequestStats: run the variable
classifier, then scan the operation document; any error thrown inside
the try block is caught and both summary mappings of the trace are reset
to empty. The document events stand for the node visits produced by the
external separateOperations/TypeInfo/visit machinery, which itself
raises no errors on an already-validated document. -/
def addTraceRequestStats (operationVarDefs : List VarDef) (varValues : VariableValues)
    (docEvents : List DocEvent) (trace : Trace) : Trace :=
  match classifyVariables operationVarDefs varValues trace [] with
  | .ok (tr2, nullVariableNames) => scanDocument docEvents nullVariableNames tr2
  | .error _ => ⟨[], []⟩

/-- Observation helper: the recorded InputFieldStat of one
(input-object type, field) pair, when present. -/
def findInputFieldStat (trace : Trace) (typeName fieldName : String) :
    Option InputFieldStat :=
  (assocGet trace.perInputTypeStat typeName).bind
    (fun ts => assocGet ts.perInputFieldStat fieldName)

/-- Observation helper: requestCount of one (input-object type, field)
pair, when present. -/
def requestCountOf (trace : Trace) (typeName fieldName : String) : Option Nat :=
  (findInputFieldStat trace typeName fieldName).map (fun st => st.requestCount)

/-- Observation helper: requestCountNull of one (input-object type,
field) pair, when present. -/
def requestCountNullOf (trace : Trace) (typeName fieldName : String) : Option Nat :=
  (findInputFieldStat trace typeName fieldName).map (fun st => st.requestCountNull)

/-- Observation helper: requestCount of one (enum type, value) pair,
when present. -/
def enumRequestCountOf (trace : Trace) (enumTypeName valueName : String) : Option Nat :=
  ((assocGet trace.perEnumTypeStat enumTypeName).bind
    (fun ts => assocGet ts.perEnumValueStat valueName)).map (fun st => st.requestCount)

/-- Concrete scalar standing for GraphQLString: parseValue accepts
strings and throws on anything else. -/
def stringScalar : InputType :=
  .scalar "String" (fun v => match v with | .vstr _ => .returnsValue | _ => .throws)

/-- Concrete scalar standing for GraphQLInt: parseValue accepts numbers
and throws on anything else. -/
def intScalar : InputType :=
  .scalar "Int" (fun v => match v with | .vnum _ => .returnsValue | _ => .throws)

/-- Scenario A input-object type: input Filter with a nullable String
field name and a nullable list field tags of non-null String. -/
def filterInputType : InputType :=
  .inputObject "Filter"
    [("name", stringScalar, false), ("tags", .list (.nonNull stringScalar), false)]

/-- Scenario A provided value for the Filter variable. -/
def filterValue : Value :=
  .vobj [("name", .vnull), ("tags", .vlist [.vstr "x", .vstr "y"])]



/-! Helper lemmas about the stats-recording accumulator. -/

theorem assocGet_updateAssoc_self {α : Type} (entries : List (String × α)) (key : String)
    (init : α) (upd : α → α) :
    assocGet (updateAssoc entries key init upd) key =
      some (upd ((assocGet entries key).getD init)) := by
  induction entries with
  | nil => simp [assocGet, updateAssoc]
  | cons hd tl ih =>
    obtain ⟨k2, v⟩ := hd
    by_cases h : k2 = key <;> simp [assocGet, updateAssoc, h, ih]

theorem requestCountOf_record (tr : Trace) (n f ft : String) (b : Bool) :
    requestCountOf (inputFieldIsInRequest tr n f ft b) n f = some 1 := by
  simp [requestCountOf, findInputFieldStat, inputFieldIsInRequest, assocGet_updateAssoc_self]

theorem enumRequestCountOf_record (tr : Trace) (n v : String) :
    enumRequestCountOf (enumValueIsInRequest tr n v) n v = some 1 := by
  simp [enumRequestCountOf, enumValueIsInRequest, assocGet_updateAssoc_self]

theorem foldl_record_requestCount :
    ∀ (calls : List (String × Bool)) (tr : Trace) (n f : String), calls ≠ [] →
      requestCountOf
        (List.foldl (fun t c => inputFieldIsInRequest t n f c.1 c.2) tr calls) n f = some 1
  | [], _, _, _, h => absurd rfl h
  | [c], tr, n, f, _ => by simpa using requestCountOf_record tr n f c.1 c.2
  | c :: d :: rest, tr, n, f, _ => by
    simp only [List.foldl_cons]
    exact foldl_record_requestCount (d :: rest) (inputFieldIsInRequest tr n f c.1 c.2) n f
      (by simp)

theorem iterate_enum_record :
    ∀ (k : Nat) (tr : Trace) (n v : String), k ≠ 0 →
      enumRequestCountOf ((fun t => enumValueIsInRequest t n v)^[k] tr) n v = some 1
  | 0, _, _, _, h => absurd rfl h
  | 1, tr, n, v, _ => by simpa using enumRequestCountOf_record tr n v
  | (k + 2), tr, n, v, _ => by
    rw [Function.iterate_succ_apply]
    exact iterate_enum_record (k + 1) (enumValueIsInRequest tr n v) n v (by omega)

/-! Claim theorems. -/

/-- C1: whenever the variable walk (the classifier together with the
type walker it invokes) fails with any validation error, the entry point
returns a trace whose two summary mappings are both empty, regardless of
occurrence writes already made earlier in the call. -/
theorem c1_discard_on_variable_error (defs : List VarDef) (varValues : VariableValues)
    (events : List DocEvent) (tr : Trace) (e : WalkError)
    (h : classifyVariables defs varValues tr [] = .error e) :
    (addTraceRequestStats defs varValues events tr).perInputTypeStat = [] ∧
      (addTraceRequestStats defs varValues events tr).perEnumTypeStat = [] := by
  simp [addTraceRequestStats, h]

/-- Declared variables of the C1 witness request: one non-null Int
variable with no default. -/
def c1WitnessDefs : List VarDef := [⟨"id", some (.nonNull intScalar), none⟩]

/-- Starting trace of the C1 witness request, already holding an
occurrence from earlier in the call. -/
def c1WitnessTrace : Trace := inputFieldIsInRequest emptyTrace "T" "f" "Int" false

/-- Witness for C1: a non-null Int variable with no default and no
provided value makes the classifier fail, and the entry point then
returns empty mappings even though the starting trace already contained
an occurrence. -/
theorem c1_discard_on_variable_error_witness :
    classifyVariables c1WitnessDefs none c1WitnessTrace [] =
      .error .missingRequiredVariable ∧
    (addTraceRequestStats c1WitnessDefs none [.enumLiteral "Color" "RED"]
        c1WitnessTrace).perInputTypeStat = [] ∧
    (addTraceRequestStats c1WitnessDefs none [.enumLiteral "Color" "RED"]
        c1WitnessTrace).perEnumTypeStat = [] :=
  ⟨rfl,
    (c1_discard_on_variable_error c1WitnessDefs none [.enumLiteral "Color" "RED"]
      c1WitnessTrace .missingRequiredVariable rfl).1,
    (c1_discard_on_variable_error c1WitnessDefs none [.enumLiteral "Color" "RED"]
      c1WitnessTrace .missingRequiredVariable rfl).2⟩

/-- C2: the entry point is a total function of its inputs; for every
input it either returns the trace produced by the successful classifier
run followed by the document scan, or returns a trace whose two summary
mappings are empty (the discard outcome). No error escapes to the
caller. -/
theorem c2_entry_point_never_throws (defs : List VarDef) (varValues : VariableValues)
    (events : List DocEvent) (tr : Trace) :
    (∃ tr2 nullNames, classifyVariables defs varValues tr [] = .ok (tr2, nullNames) ∧
        addTraceRequestStats defs varValues events tr = scanDocument events nullNames tr2) ∨
      ((addTraceRequestStats defs varValues events tr).perInputTypeStat = [] ∧
        (addTraceRequestStats defs varValues events tr).perEnumTypeStat = []) := by
  cases h : classifyVariables defs varValues tr [] with
  | ok p =>
    obtain ⟨tr2, nullNames⟩ := p
    exact Or.inl ⟨tr2, nullNames, rfl, by simp [addTraceRequestStats, h]⟩
  | error e => exact Or.inr (by simp [addTraceRequestStats, h])

/-- Constructor evaluation: an array value is never null. -/
theorem isNull_vlist (xs : List Value) : Value.isNull (.vlist xs) = false := rfl

/-- Constructor evaluation: an array value is a collection. -/
theorem isCollection_vlist (xs : List Value) : isCollection (.vlist xs) = true := rfl

/-- Constructor evaluation: forEach over an array visits its elements. -/
theorem collectionElems_vlist (xs : List Value) : collectionElems (.vlist xs) = xs := rfl

/-- C3 counterexample: the claim fails for the one non-collection value
that the walker handles before reaching the list branch. Walking null
against a nullable list of non-null Int succeeds with no writes, while
walking the one-element list containing null against the same type fails
with nullForNonNull, so the two walks do not produce the same result. -/
theorem c3_counterexample :
    walkInput .vnull (.list (.nonNull intScalar)) emptyTrace ≠
      walkInput (.vlist [.vnull]) (.list (.nonNull intScalar)) emptyTrace := by
  have h1 : walkInput .vnull (.list (.nonNull intScalar)) emptyTrace = .ok emptyTrace := by
    simp [walkInput, Value.isNull]
  have h2 : walkInput (.vlist [.vnull]) (.list (.nonNull intScalar)) emptyTrace =
      .error .nullForNonNull := by
    simp [walkInput, walkList, Value.isNull, isCollection, collectionElems]
  rw [h1, h2]
  simp

/-- C3 amended: for every non-null value that is not a collection,
walking it against a list type produces exactly the same result and
summary as walking the one-element list containing it; in particular a
bare scalar against a list-of-scalar type is coerced, not rejected for
its shape. (Null is excluded: null against a nullable list succeeds
before the list branch is reached, while a list containing null recurses
into the item type.) -/
theorem c3_list_singleton_coercion (v : Value) (t : InputType) (tr : Trace)
    (h1 : isCollection v = false) (h2 : v.isNull = false) :
    walkInput v (.list t) tr = walkInput (.vlist [v]) (.list t) tr := by
  cases hw : walkInput v t tr <;>
    simp [walkInput, walkList, h1, h2, isNull_vlist, isCollection_vlist,
      collectionElems_vlist, hw]

/-- Witness for C3: the number 3 against a list of Int walks exactly as
the list containing only 3 does. -/
theorem c3_list_singleton_coercion_witness :
    isCollection (.vnum 3) = false ∧ Value.isNull (.vnum 3) = false ∧
      walkInput (.vnum 3) (.list intScalar) emptyTrace =
        walkInput (.vlist [.vnum 3]) (.list intScalar) emptyTrace :=
  ⟨rfl, rfl, c3_list_singleton_coercion (.vnum 3) intScalar emptyTrace rfl rfl⟩

/-- C4: Scenario A. Walking the value with a null name and the two-tag
list against the Filter input-object type yields a summary in which the
name field of Filter has field type String with requestCount 1 and
requestCountNull 1, and the tags field has field type [String!] with
requestCount 1 and requestCountNull 0. -/
theorem c4_scenario_a :
    ∃ tr2, walkInput filterValue filterInputType emptyTrace = .ok tr2 ∧
      findInputFieldStat tr2 "Filter" "name" = some ⟨"String", 1, 1⟩ ∧
      findInputFieldStat tr2 "Filter" "tags" = some ⟨"[String!]", 1, 0⟩ := by
  refine ⟨⟨[("Filter", ⟨[("name", ⟨"String", 1, 1⟩), ("tags", ⟨"[String!]", 1, 0⟩)]⟩)], []⟩,
    ?_, rfl, rfl⟩
  simp [walkInput, walkList, walkFields, filterValue, filterInputType, stringScalar,
    Value.isNull, Value.isUndefined, isCollection, collectionElems, jsGet, jsKeys,
    jsTypeofIsObject, assocGet, checkProvidedKeys, inputFieldIsInRequest, updateAssoc,
    typeToString, isNonNullType, newInputFieldStat, emptyTrace, natKey]

/-- C5: walking any value against a non-null wrapper fails with
nullForNonNull exactly when the value is null, and otherwise produces
the same result and summary writes as walking the value against the
inner type. -/
theorem c5_nonnull_wrapper (v : Value) (t : InputType) (tr : Trace) :
    walkInput v (.nonNull t) tr =
      if v.isNull then .error .nullForNonNull else walkInput v t tr := by
  simp only [walkInput]

/-- C6: occurrence recording is idempotent within a request. Any
non-empty sequence of record calls for one (input-object type, field)
pair leaves requestCount at exactly 1, and any non-zero number of record
calls for one (enum type, value) pair leaves its requestCount at exactly
1 — the flags are presence bits, never counters. -/
theorem c6_record_idempotent (tr : Trace) (n f ename vname : String)
    (calls : List (String × Bool)) (k : Nat) (h1 : calls ≠ []) (h2 : k ≠ 0) :
    requestCountOf
        (List.foldl (fun t c => inputFieldIsInRequest t n f c.1 c.2) tr calls) n f = some 1 ∧
      enumRequestCountOf
        ((fun t => enumValueIsInRequest t ename vname)^[k] tr) ename vname = some 1 :=
  ⟨foldl_record_requestCount calls tr n f h1, iterate_enum_record k tr ename vname h2⟩

/-- Witness for C6: recording the Filter.name field twice (once null,
once not) and the Color.RED enum value twice each leave requestCount at
1. -/
theorem c6_record_idempotent_witness :
    ([("String", true), ("String", false)] : List (String × Bool)) ≠ [] ∧ (2 : Nat) ≠ 0 ∧
      (requestCountOf
          (List.foldl (fun t c => inputFieldIsInRequest t "Filter" "name" c.1 c.2) emptyTrace
            [("String", true), ("String", false)]) "Filter" "name" = some 1 ∧
        enumRequestCountOf
          ((fun t => enumValueIsInRequest t "Color" "RED")^[2] emptyTrace) "Color" "RED" =
          some 1) :=
  ⟨by simp, by simp,
    c6_record_idempotent emptyTrace "Filter" "name" "Color" "RED"
      [("String", true), ("String", false)] 2 (by simp) (by simp)⟩

/-- Property access on an empty array yields length 0 and undefined for
every other key. -/
theorem jsGet_vlist_nil (key : String) :
    jsGet (.vlist []) key = if key = "length" then .vnum 0 else .vundefined := by
  by_cases h : key = "length"
  · simp [jsGet, h]
  · cases hk : natKey key <;> simp [jsGet, h, hk]

/-- C7 counterexample: an empty array is a list, hence not a keyed
record, yet walking it against the Filter input-object type does not
fail with notAnObject — typeof [] is "object", every declared field
reads as undefined and is nullable, and an empty array has no keys, so
the walk succeeds. -/
theorem c7_counterexample :
    walkInput (.vlist []) filterInputType emptyTrace ≠ .error .notAnObject := by
  have h : walkInput (.vlist []) filterInputType emptyTrace = .ok emptyTrace := by
    simp [walkInput, walkFields, filterInputType, stringScalar, Value.isNull,
      Value.isUndefined, jsTypeofIsObject, jsGet_vlist_nil, jsKeys, checkProvidedKeys,
      isNonNullType]
  rw [h]
  simp

/-- C7 amended: walking a value whose JavaScript typeof is not "object"
(a string, a number, a boolean, or undefined) against an input-object
type fails with notAnObject; a list passes the typeof check and is
processed as an object instead. -/
theorem c7_nonobject_primitive (v : Value) (name : String)
    (fields : List (String × InputType × Bool)) (tr : Trace)
    (h : jsTypeofIsObject v = false) :
    walkInput v (.inputObject name fields) tr = .error .notAnObject := by
  cases v <;> simp_all [walkInput, jsTypeofIsObject, Value.isNull]

/-- Witness for C7: the string "hello" against the Filter input-object
type fails with notAnObject. -/
theorem c7_nonobject_primitive_witness :
    jsTypeofIsObject (.vstr "hello") = false ∧
      walkInput (.vstr "hello") filterInputType emptyTrace = .error .notAnObject :=
  ⟨rfl,
    c7_nonobject_primitive (.vstr "hello") "Filter"
      [("name", stringScalar, false), ("tags", .list (.nonNull stringScalar), false)]
      emptyTrace rfl⟩

/-- C8: for a declared variable with a resolvable input type and no
entry in the provided values, classification fails with
missingRequiredVariable exactly when the type is non-null and no default
literal exists; otherwise the variable name joins the null set exactly
when there is no default or the default is a null literal, and
classification proceeds to the remaining variables with the trace
untouched (the type walker is not invoked for this variable). -/
theorem c8_absent_variable (vd : VarDef) (rest : List VarDef) (varValues : VariableValues)
    (tr : Trace) (acc : List String) (varType : InputType)
    (h1 : vd.varType = some varType) (h2 : hasOwn varValues vd.name = false) :
    classifyVariables (vd :: rest) varValues tr acc =
      if vd.defaultValue = none && isNonNullType varType then
        .error .missingRequiredVariable
      else
        classifyVariables rest varValues tr
          (if vd.defaultValue = none || vd.defaultValue = some .nullValue then
            acc ++ [vd.name]
          else acc) := by
  simp [classifyVariables, h1, h2]

/-- Declared variable of the C8 witness: non-null Int, no default. -/
def c8WitnessVar : VarDef := ⟨"id", some (.nonNull intScalar), none⟩

/-- Witness for C8: the non-null Int variable with no default and no
provided entry makes classification fail with missingRequiredVariable. -/
theorem c8_absent_variable_witness :
    c8WitnessVar.varType = some (.nonNull intScalar) ∧
      hasOwn none c8WitnessVar.name = false ∧
      classifyVariables [c8WitnessVar] none emptyTrace [] =
        (if c8WitnessVar.defaultValue = none && isNonNullType (.nonNull intScalar) then
          .error .missingRequiredVariable
        else
          classifyVariables [] none emptyTrace
            (if c8WitnessVar.defaultValue = none ||
                c8WitnessVar.defaultValue = some .nullValue then
              [] ++ [c8WitnessVar.name]
            else [])) :=
  ⟨rfl, rfl,
    c8_absent_variable c8WitnessVar [] none emptyTrace [] (.nonNull intScalar) rfl rfl⟩

/-- C9: once requestCountNull is 1 for a (type, field) pair, any later
record call for the same pair — null or not — leaves it at 1; the
recording operation never resets the null flag. -/
theorem c9_null_flag_sticky (tr : Trace) (n f ft : String) (b : Bool)
    (h : requestCountNullOf tr n f = some 1) :
    requestCountNullOf (inputFieldIsInRequest tr n f ft b) n f = some 1 := by
  rcases hts : assocGet tr.perInputTypeStat n with _ | ts
  · simp [requestCountNullOf, findInputFieldStat, hts] at h
  · rcases hst : assocGet ts.perInputFieldStat f with _ | st
    · simp [requestCountNullOf, findInputFieldStat, hts, hst] at h
    · have hnull : st.requestCountNull = 1 := by
        simpa [requestCountNullOf, findInputFieldStat, hts, hst] using h
      simp [requestCountNullOf, findInputFieldStat, inputFieldIsInRequest,
        assocGet_updateAssoc_self, hts, hst]
      cases b <;> simp [hnull]

/-- Witness for C9: after a null occurrence of Filter.name, a non-null
occurrence of the same field leaves requestCountNull at 1. -/
theorem c9_null_flag_sticky_witness :
    requestCountNullOf (inputFieldIsInRequest emptyTrace "Filter" "name" "String" true)
        "Filter" "name" = some 1 ∧
      requestCountNullOf
        (inputFieldIsInRequest
          (inputFieldIsInRequest emptyTrace "Filter" "name" "String" true)
          "Filter" "name" "String" false) "Filter" "name" = some 1 :=
  ⟨rfl,
    c9_null_flag_sticky (inputFieldIsInRequest emptyTrace "Filter" "name" "String" true)
      "Filter" "name" "String" false rfl⟩

/-- C10: the null checks of the walker compare against null only. An
undefined value is accepted by the non-null wrapper and walked against
the inner type, and an input-object field whose looked-up value is
undefined is treated as omitted — the field loop records nothing for it
(so in particular it is never recorded as null) and either fails with
missingRequiredField (non-null type, no default) or skips to the
remaining fields. -/
theorem c10_undefined_not_null (t : InputType) (tr tr2 : Trace) (name f : String)
    (ftype : InputType) (hasDefault : Bool)
    (restFields : List (String × InputType × Bool)) (v : Value)
    (h : (jsGet v f).isUndefined = true) :
    walkInput .vundefined (.nonNull t) tr = walkInput .vundefined t tr ∧
      walkFields name ((f, ftype, hasDefault) :: restFields) v tr2 =
        (if !hasDefault && isNonNullType ftype then .error .missingRequiredField
         else walkFields name restFields v tr2) := by
  constructor
  · simp [walkInput, Value.isNull]
  · simp [walkFields, h]

/-- Object value of the C10 witness: one key present with an undefined
value. -/
def c10WitnessObj : Value := .vobj [("a", .vundefined)]

/-- Witness for C10: undefined against non-null Int walks the inner
type, and a field read as undefined on a nullable String field is
skipped without any record. -/
theorem c10_undefined_not_null_witness :
    (jsGet c10WitnessObj "a").isUndefined = true ∧
      (walkInput .vundefined (.nonNull intScalar) emptyTrace =
          walkInput .vundefined intScalar emptyTrace ∧
        walkFields "T" [("a", stringScalar, false)] c10WitnessObj emptyTrace =
          (if !false && isNonNullType stringScalar then .error .missingRequiredField
           else walkFields "T" [] c10WitnessObj emptyTrace)) :=
  ⟨rfl,
    c10_undefined_not_null intScalar emptyTrace emptyTrace "T" "a" stringScalar false []
      c10WitnessObj rfl⟩

end ApolloStats
